import Mathlib

/-!
Shallow embedding of the NL→SQL pipeline of `app.py` (Project_P1_Datalynx):
the statement generator `nl_to_sql`, the repairer `fix_sql`, the executor
`run_sql`, and the orchestrating chat handler in `main`.  External effects
(the Ollama text-completion service, the SQLite engine, the Streamlit UI)
are modelled as explicit oracles / event traces; the Python string
manipulation is embedded operation by operation.
-/

namespace Datalynx

/-- Characters that Python's `str.strip()` (no argument) removes. -/
def isPySpace (c : Char) : Bool :=
  c = ' ' || c = '\t' || c = '\n' || c = '\r' || c = '\x0b' || c = '\x0c'

/-- Python `str.strip()` on a character list: drop whitespace at both ends. -/
def pyStripList (l : List Char) : List Char :=
  ((l.dropWhile isPySpace).reverse.dropWhile isPySpace).reverse

/-- Python `str.strip()`. -/
def pyStrip (s : String) : String :=
  String.mk (pyStripList s.toList)

/-- Python `str.rstrip(";")`: remove every trailing `;` character. -/
def pyRstripSemi (s : String) : String :=
  String.mk ((s.toList.reverse.dropWhile (fun c => c = ';')).reverse)

/-- Python `str.lower()` (ASCII suffices for the keyword checks). -/
def pyLower (s : String) : String :=
  String.mk (s.toList.map Char.toLower)

/-- Does `hay` start with `needle` (on character lists)? -/
def listHasPre : List Char → List Char → Bool
  | [], _ => true
  | _ :: _, [] => false
  | a :: as, b :: bs => a = b && listHasPre as bs

/-- Python's substring test `needle in hay` on character lists. -/
def listHasSub (n : List Char) : List Char → Bool
  | [] => n.isEmpty
  | c :: t => listHasPre n (c :: t) || listHasSub n t

/-- Python's substring test `needle in hay` on strings. -/
def strHasSub (needle hay : String) : Bool :=
  listHasSub needle.toList hay.toList

/-- Python `str.split(sep)` for a non-empty separator, on character lists.
The fuel argument makes the recursion structural; any fuel of at least the
length of the input produces the fully split result. -/
def pySplitList (sep : List Char) : Nat → List Char → List (List Char)
  | _, [] => [[]]
  | 0, l => [l]
  | Nat.succ f, c :: rest =>
    if sep.isEmpty then [c :: rest]
    else if listHasPre sep (c :: rest) then
      [] :: pySplitList sep f ((c :: rest).drop sep.length)
    else
      match pySplitList sep f rest with
      | [] => [[c]]
      | x :: xs => (c :: x) :: xs

/-- Python `str.split(sep)` on strings (non-empty separator). -/
def pySplitOnStr (sep s : String) : List String :=
  (pySplitList sep.toList (s.toList.length + 1) s.toList).map String.mk

/-- The `if sql.endswith(";"): sql = sql[:-1]` step of `nl_to_sql` /
`fix_sql`: remove a single trailing semicolon. -/
def dropOneSemi (s : String) : String :=
  if s.toList.getLast? = some ';' then String.mk s.toList.dropLast else s

/-- The first whitespace-delimited token of `l` (what Python's
`l.split()[0]` yields when a token exists, and `[]` when none does). -/
def firstWordList (l : List Char) : List Char :=
  (l.dropWhile isPySpace).takeWhile (fun c => !isPySpace c)

/-- Python `sql.split()[0].lower() if sql else ""` (`nl_to_sql` line 163).
The cleaned text fed here is stripped, so when it is non-empty its
whitespace split is non-empty and its first element is the leading
non-whitespace run. -/
def firstWordLower (sql : String) : String :=
  if sql = "" then "" else pyLower (String.mk (firstWordList sql.toList))

/-- The statement keywords accepted by the sanity check of `nl_to_sql` and
`fix_sql` (line 164 / 239). -/
def sqlKeywords : List String :=
  ["select", "insert", "update", "delete", "create", "alter", "drop", "pragma"]

/-- The keywords used to pick a fragment during fence stripping
(lines 146-152); note `pragma` is absent here. -/
def fenceKeywords : List String :=
  ["select", "insert", "update", "delete", "create", "alter", "drop"]

/-- Does a fence fragment contain one of the recognized keywords in its
lower-cased text (the comprehension filter of lines 146-152)? -/
def hasFenceKw (p : String) : Bool :=
  fenceKeywords.any (fun kw => strHasSub kw (pyLower p))

/-- The markdown-fence cleaning block of `nl_to_sql` (lines 143-154) and
`fix_sql` (lines 222-232): when the raw completion contains a fence
delimiter, split on it and take the first fragment containing a SQL
keyword (stripped); otherwise keep the raw text. -/
def cleanFences (raw : String) : String :=
  if strHasSub "```" raw then
    match ((pySplitOnStr "```" raw).filter hasFenceKw).head? with
    | some p => pyStrip p
    | none => raw
  else raw

/-- The full cleaning pipeline applied to a raw completion in `nl_to_sql`
(lines 140-160) and `fix_sql` (lines 220-236): strip, remove fences,
strip, drop one trailing semicolon. -/
def cleanedOf (content : String) : String :=
  dropOneSemi (pyStrip (cleanFences (pyStrip content)))

/-- The sanity check of lines 163-164 / 238-239. -/
def leadKwOk (sql : String) : Bool :=
  sqlKeywords.contains (firstWordLower sql)

/-- Outcome of the generator / repairer: Python returns the pair
`(sql, error_message)` where exactly one component is `None` on every
return path. -/
inductive GenOutcome where
  | ok (sql : String)
  | genErr (msg : String)
  deriving DecidableEq, Repr

/-- Return value of the modelled `nl_to_sql`: its outcome together with
the number of calls made to the text-completion service. -/
structure NlReturn where
  outcome : GenOutcome
  llmCalls : Nat
  deriving DecidableEq, Repr

/-- Result of one `ollama.chat` call, as seen by the caller: either the
message content, or the text of a raised exception. -/
def LlmReply := Except String String

/-- Embedding of `nl_to_sql` (app.py lines 107-170).  The completion
service is the oracle `llm`; the prompt construction is not modelled
since it only feeds that oracle. -/
def nl_to_sql (llm : LlmReply) (text : String) : NlReturn :=
  if text = "" || pyStrip text = "" then
    ⟨.genErr "Please type a question or command.", 0⟩
  else
    match llm with
    | .error e => ⟨.genErr ("Error from LLM: " ++ e), 1⟩
    | .ok content =>
      let sql := cleanedOf content
      if leadKwOk sql then ⟨.ok sql, 1⟩
      else ⟨.genErr ("Model did not return a valid SQL statement. It returned:\n" ++ sql), 1⟩

/-- Embedding of `fix_sql` (app.py lines 174-245): same cleaning and
validation pipeline as `nl_to_sql`, different error prefixes.  The three
string arguments only feed the repair prompt, i.e. the oracle. -/
def fix_sql (llm : LlmReply) (original_sql db_error user_request : String) : GenOutcome :=
  match llm with
  | .error e => .genErr ("Error from LLM during fix: " ++ e)
  | .ok content =>
    let sql := cleanedOf content
    if leadKwOk sql then .ok sql
    else .genErr ("Fixed SQL is not a valid statement. It returned:\n" ++ sql)

/-- What the engine reports for one executed statement: either a raised
error (its diagnostic text), or a cursor with an optional description
(column names, present exactly for row-returning statements), the fetched
rows, and the connection-local pending database state that a commit would
persist.  `σ` is the persistent database state, `ρ` the row type. -/
inductive ExecReply (σ ρ : Type) where
  | ok (description : Option (List String)) (rows : List ρ) (pending : σ)
  | raised (msg : String)
  deriving DecidableEq

/-- The SQLite engine boundary: a function of the current persistent
state and the statement text. -/
def Engine (σ ρ : Type) := σ → String → ExecReply σ ρ

/-- Observable resource events inside `run_sql`. -/
inductive DbEvent where
  | openConn
  | execStmt (sql : String)
  | fetchAll
  | commit
  | closeConn
  deriving DecidableEq, Repr

/-- The triple `(df, error_message, kind)` returned by `run_sql`, together
with the event trace of the call and the persistent database state after
it (commit persists the pending state; closing without commit discards
it). -/
structure RunResult (σ ρ : Type) where
  df : Option (List String × List ρ)
  err : Option String
  kind : Option String
  events : List DbEvent
  finalDb : σ
  deriving DecidableEq

/-- The statement preprocessing of `run_sql` line 86:
`query.strip().rstrip(";")`. -/
def preprocessSql (query : String) : String :=
  pyRstripSemi (pyStrip query)

/-- Embedding of `run_sql` (app.py lines 71-103).  A raised engine error
is caught and returned as `(None, str(e), None)`; note that the `except`
branch returns without closing the connection, so no `closeConn` event is
emitted on that path and the pending state is discarded. -/
def run_sql {σ ρ : Type} (eng : Engine σ ρ) (db : σ) (query : String) : RunResult σ ρ :=
  let sql := preprocessSql query
  match eng db sql with
  | .raised msg =>
      ⟨none, some msg, none, [.openConn, .execStmt sql], db⟩
  | .ok (some cols) rows _pending =>
      ⟨some (cols, rows), none, some "select",
        [.openConn, .execStmt sql, .fetchAll, .closeConn], db⟩
  | .ok none _rows pending =>
      ⟨none, none, some "other",
        [.openConn, .execStmt sql, .commit, .closeConn], pending⟩

/-- Observable events of one chat turn of `main` (app.py lines 298-383):
history appends (`st.session_state.messages.append`), SQL code displays
(`st.code`), and the calls into the generator, executor and repairer. -/
inductive Event where
  | msgUser (content : String)
  | msgAssistant (content : String)
  | genCall
  | showSql (sql : String)
  | execCall (sql : String)
  | fixCall
  | showFixedSql (sql : String)
  deriving DecidableEq, Repr

/-- Python truthiness of the optional error string: `if db_err:` is taken
exactly when the error is present and non-empty. -/
def truthy (o : Option String) : Bool :=
  match o with
  | none => false
  | some s => s ≠ ""

/-- The assistant history message recorded on a successful execution
(`main` lines 343-362 for the after-fix branch, 363-383 otherwise):
Python tests `kind == "select"` and then `df is None or df.empty`. -/
def outcomeMsg {ρ : Type} (kind : Option String) (df : Option (List String × List ρ))
    (afterFix : Bool) : String :=
  if kind = some "select" then
    match df with
    | some (_, _ :: _) =>
        if afterFix then "✅ Query ran successfully (after fix) and returned rows."
        else "✅ Query ran successfully and returned rows."
    | _ =>
        if afterFix then "✅ Query ran (after fix), but no rows matched."
        else "✅ Query ran successfully, but no rows matched."
  else
    if afterFix then "✅ Command executed successfully on the database (after fix)."
    else "✅ Command executed successfully on the database."

/-- The per-turn assistant block of `main` (app.py lines 298-383) as an
event trace: generate, execute, and on a database error repair once and
re-execute once; every path appends exactly one assistant message.
`if err:` after `nl_to_sql` is modelled by the `GenOutcome` split (every
error message built by `nl_to_sql` / `fix_sql` is non-empty, so Python's
truthiness test coincides with it); `if db_err:` is modelled by
`truthy`. -/
def handle {σ ρ : Type} (genLlm fixLlm : LlmReply) (eng : Engine σ ρ) (db : σ)
    (user : String) : List Event :=
  let ev0 : List Event := [.msgUser user, .genCall]
  match (nl_to_sql genLlm user).outcome with
  | .genErr err => ev0 ++ [.msgAssistant ("❌ " ++ err)]
  | .ok sql =>
    let r1 := run_sql eng db sql
    let ev1 := ev0 ++ [.showSql sql, .execCall sql]
    if truthy r1.err then
      let dbErr := r1.err.getD ""
      match fix_sql fixLlm sql dbErr user with
      | .genErr fixErr =>
          ev1 ++ [.fixCall,
            .msgAssistant ("❌ DB error: " ++ dbErr ++ "\n\nAnd fix also failed: " ++ fixErr)]
      | .ok fixedSql =>
        let r2 := run_sql eng r1.finalDb fixedSql
        let ev2 := ev1 ++ [.fixCall, .showFixedSql fixedSql, .execCall fixedSql]
        if truthy r2.err then
          ev2 ++ [.msgAssistant ("❌ DB error after fix: " ++ r2.err.getD "")]
        else
          ev2 ++ [.msgAssistant (outcomeMsg r2.kind r2.df true)]
    else
      ev1 ++ [.msgAssistant (outcomeMsg r1.kind r1.df false)]

/-- Number of executor invocations in a trace. -/
def countExec (evs : List Event) : Nat :=
  evs.countP (fun e => match e with | .execCall _ => true | _ => false)

/-- Number of generator invocations in a trace. -/
def countGen (evs : List Event) : Nat :=
  evs.countP (fun e => match e with | .genCall => true | _ => false)

/-- Number of repairer invocations in a trace. -/
def countFix (evs : List Event) : Nat :=
  evs.countP (fun e => match e with | .fixCall => true | _ => false)

/-- The assistant messages recorded in the interaction history by a
trace, in order. -/
def assistantMsgs (evs : List Event) : List String :=
  evs.filterMap (fun e => match e with | .msgAssistant c => some c | _ => none)

/-! Concrete engine fixtures used to instantiate the theorems below. -/

/-- An engine that raises a fixed column-not-found diagnostic. -/
def errEngine : Engine Nat Nat := fun _ _ => .raised "no such column: foo"

/-- An engine that raises the statement text it received as its
diagnostic, making the executed statement observable. -/
def echoErrEngine : Engine Nat Nat := fun _ s => .raised s

/-- An engine that reports a one-column, one-row result set and also a
pending state change (which `run_sql` must discard). -/
def pendingRowsEngine : Engine Nat Nat := fun db _ => .ok (some ["id"]) [7] (db + 1)

/-- An engine that reports a one-column result set with zero rows. -/
def emptyRowsEngine : Engine Nat Nat := fun db _ => .ok (some ["id"]) [] db

/-- An engine that reports no result-set shape and a pending state
change (an effect-only statement). -/
def effectEngine : Engine Nat Nat := fun db _ => .ok none [] (db + 1)

/-! Helper lemmas about trailing-character stripping. -/

/-- Splitting off the run of leading characters that `dropWhile` removes,
when the predicate recognizes exactly the character `a`. -/
lemma dropWhile_replicate_decomp (p : Char → Bool) (a : Char)
    (ha : ∀ c, p c = true ↔ c = a) (l : List Char) :
    ∃ n, l = List.replicate n a ++ l.dropWhile p := by
  induction l with
  | nil => exact ⟨0, rfl⟩
  | cons c t ih =>
    by_cases hc : p c
    · obtain ⟨n, hn⟩ := ih
      refine ⟨n + 1, ?_⟩
      have hca : c = a := (ha c).1 hc
      subst hca
      rw [List.replicate_succ]
      simpa [List.dropWhile_cons, hc] using hn
    · exact ⟨0, by simp [List.dropWhile_cons, hc]⟩

/-- The head of `dropWhile p l` never satisfies `p`. -/
lemma head_dropWhile_false (p : Char → Bool) (l : List Char) (c : Char)
    (h : (l.dropWhile p).head? = some c) : p c = false := by
  induction l with
  | nil => simp [List.dropWhile] at h
  | cons a t ih =>
    rw [List.dropWhile_cons] at h
    by_cases hp : p a
    · simp [hp] at h; exact ih h
    · simp [hp] at h; subst h; simpa using hp

/-! Claim theorems. -/

/-- C2: `run_sql` returns a row-set outcome `(df, None, "select")` exactly
when the engine reports a result-set shape (non-null cursor description),
fetching all rows; a result set with zero rows is returned as a row-set
outcome with no error, distinct from a failure; and when no result-set
shape is reported, the pending changes are committed (the final state is
the pending state) and the effect outcome `(None, None, "other")` is
returned. -/
theorem run_sql_rows_effect_classification {σ ρ : Type} (eng : Engine σ ρ) (db : σ)
    (q : String) :
    (∀ cols rows pending, eng db (preprocessSql q) = .ok (some cols) rows pending →
      run_sql eng db q = ⟨some (cols, rows), none, some "select",
        [.openConn, .execStmt (preprocessSql q), .fetchAll, .closeConn], db⟩)
  ∧ ((run_sql eng db q).df ≠ none →
      ∃ cols rows pending, eng db (preprocessSql q) = .ok (some cols) rows pending)
  ∧ (∀ cols pending, eng db (preprocessSql q) = .ok (some cols) [] pending →
      (run_sql eng db q).df = some (cols, []) ∧ (run_sql eng db q).err = none)
  ∧ (∀ rows pending, eng db (preprocessSql q) = .ok none rows pending →
      run_sql eng db q = ⟨none, none, some "other",
        [.openConn, .execStmt (preprocessSql q), .commit, .closeConn], pending⟩) := by
  refine ⟨?_, ?_, ?_, ?_⟩
  · intro cols rows pending h
    simp [run_sql, h]
  · intro hdf
    cases hE : eng db (preprocessSql q) with
    | ok desc rows pending =>
      cases desc with
      | some cols => exact ⟨cols, rows, pending, hE ▸ rfl⟩
      | none => simp [run_sql, hE] at hdf
    | raised msg => simp [run_sql, hE] at hdf
  · intro cols pending h
    simp [run_sql, h]
  · intro rows pending h
    simp [run_sql, h]

/-- C2 witness: a concrete engine reporting a zero-row result set yields
the row-set outcome with empty rows and no error. -/
theorem run_sql_rows_effect_classification_witness :
    (run_sql emptyRowsEngine 0 "select id from students").df = some (["id"], []) ∧
    (run_sql emptyRowsEngine 0 "select id from students").err = none :=
  (run_sql_rows_effect_classification emptyRowsEngine 0 "select id from students").2.2.1
    ["id"] 0 rfl

/-- C4: when the engine raises an error, `run_sql` catches it and returns
the failure triple `(None, str(e), None)` carrying the engine's diagnostic
text verbatim; no exception escapes (the returned value is a plain
`RunResult` on every path). -/
theorem run_sql_error_verbatim {σ ρ : Type} (eng : Engine σ ρ) (db : σ) (q msg : String)
    (h : eng db (preprocessSql q) = .raised msg) :
    run_sql eng db q = ⟨none, some msg, none,
      [.openConn, .execStmt (preprocessSql q)], db⟩ := by
  simp [run_sql, h]

/-- C4 witness: a malformed statement against an engine raising a
column-not-found diagnostic returns that diagnostic verbatim as the
failure message. -/
theorem run_sql_error_verbatim_witness :
    run_sql errEngine 0 "select foo from students" =
      ⟨none, some "no such column: foo", none,
        [.openConn, .execStmt (preprocessSql "select foo from students")], 0⟩ :=
  run_sql_error_verbatim errEngine 0 "select foo from students" "no such column: foo" rfl

/-- C5 counterexample: on the engine-error path `run_sql` returns without
closing the connection — the trace of a failing call opens the connection
but contains no close event, refuting closure on every exit path. -/
theorem run_sql_not_closed_on_error :
    DbEvent.closeConn ∉ (run_sql errEngine 0 "select foo from students").events ∧
    DbEvent.openConn ∈ (run_sql errEngine 0 "select foo from students").events := by
  decide

/-- C5 amended: the connection is closed exactly on the successful exit
paths — `run_sql` emits a close event if and only if it returns without
an error; on the engine-error path it returns with the connection still
open. -/
theorem run_sql_close_iff_no_error {σ ρ : Type} (eng : Engine σ ρ) (db : σ) (q : String) :
    (run_sql eng db q).err = none ↔
      DbEvent.closeConn ∈ (run_sql eng db q).events := by
  cases hE : eng db (preprocessSql q) with
  | ok desc rows pending =>
    cases desc with
    | some cols => simp [run_sql, hE]
    | none => simp [run_sql, hE]
  | raised msg => simp [run_sql, hE]

/-- C7 counterexample: for a statement ending in two semicolons the code
removes both before executing (Python `rstrip(";")` removes every
trailing terminator), so the engine receives `select 1`, not the
`select 1;` that removing exactly one terminator would produce. -/
theorem run_sql_two_semis_counterexample :
    (run_sql echoErrEngine 0 "select 1;;").err = some "select 1" ∧
    (run_sql echoErrEngine 0 "select 1;;").err ≠ some "select 1;" := by
  decide

/-- C7 amended: `run_sql` trims surrounding whitespace and removes ALL
trailing `;` characters before executing: the executed statement is
`preprocessSql q`, the trimmed text is the executed text followed by some
run of semicolons, and the executed text has no trailing semicolon. -/
theorem run_sql_strips_all_trailing_semis {σ ρ : Type} (eng : Engine σ ρ) (db : σ)
    (q : String) :
    DbEvent.execStmt (preprocessSql q) ∈ (run_sql eng db q).events
  ∧ (∃ n, (pyStrip q).toList = (preprocessSql q).toList ++ List.replicate n ';')
  ∧ (preprocessSql q).toList.getLast? ≠ some ';' := by
  refine ⟨?_, ?_, ?_⟩
  · cases hE : eng db (preprocessSql q) with
    | ok desc rows pending =>
      cases desc with
      | some cols => simp [run_sql, hE]
      | none => simp [run_sql, hE]
    | raised msg => simp [run_sql, hE]
  · have htl : (preprocessSql q).toList =
        ((pyStrip q).toList.reverse.dropWhile (fun c => c = ';')).reverse := rfl
    obtain ⟨n, hn⟩ := dropWhile_replicate_decomp (fun c => c = ';') ';'
      (fun c => by simp) (pyStrip q).toList.reverse
    refine ⟨n, ?_⟩
    rw [htl]
    calc (pyStrip q).toList
        = (pyStrip q).toList.reverse.reverse := by rw [List.reverse_reverse]
      _ = (List.replicate n ';' ++
            (pyStrip q).toList.reverse.dropWhile (fun c => c = ';')).reverse := by rw [← hn]
      _ = ((pyStrip q).toList.reverse.dropWhile (fun c => c = ';')).reverse ++
            List.replicate n ';' := by
            rw [List.reverse_append, List.reverse_replicate]
  · have htl : (preprocessSql q).toList =
        ((pyStrip q).toList.reverse.dropWhile (fun c => c = ';')).reverse := rfl
    rw [htl, List.getLast?_reverse]
    intro hlast
    have := head_dropWhile_false (fun c => c = ';') (pyStrip q).toList.reverse ';' hlast
    simp at this

/-- C10: when the engine reports a result-set shape, `run_sql` closes the
connection without committing (no commit event, a close event), so the
pending state change is discarded and the persistent database state is
unchanged. -/
theorem run_sql_select_discards_pending {σ ρ : Type} (eng : Engine σ ρ) (db : σ)
    (q : String) (cols : List String) (rows : List ρ) (pending : σ)
    (h : eng db (preprocessSql q) = .ok (some cols) rows pending) :
    (run_sql eng db q).finalDb = db
  ∧ DbEvent.commit ∉ (run_sql eng db q).events
  ∧ DbEvent.closeConn ∈ (run_sql eng db q).events := by
  simp [run_sql, h]

/-- C10 witness: a row-returning statement on an engine that also reports
a pending state change leaves the persistent state unchanged. -/
theorem run_sql_select_discards_pending_witness :
    (run_sql pendingRowsEngine 0 "select id from students").finalDb = 0
  ∧ DbEvent.commit ∉ (run_sql pendingRowsEngine 0 "select id from students").events
  ∧ DbEvent.closeConn ∈ (run_sql pendingRowsEngine 0 "select id from students").events :=
  run_sql_select_discards_pending pendingRowsEngine 0 "select id from students"
    ["id"] [7] 1 rfl

/-- C6: when the raw completion contains a fence delimiter and at least
one split fragment whose lowercase text contains a recognized SQL
keyword, the fence-cleaning step yields exactly the first such fragment,
stripped of surrounding whitespace (in particular, when there is exactly
one such fragment, it is the one selected). -/
theorem cleanFences_first_kw_fragment (raw p : String) (rest : List String)
    (h1 : strHasSub "```" raw = true)
    (h2 : (pySplitOnStr "```" raw).filter hasFenceKw = p :: rest) :
    cleanFences raw = pyStrip p := by
  simp [cleanFences, h1, h2]

/-- C6 witness: a completion wrapped in fences with exactly one
keyword-bearing fragment cleans to that fragment. -/
theorem cleanFences_first_kw_fragment_witness :
    strHasSub "```" "```select * from students;```" = true
  ∧ (pySplitOnStr "```" "```select * from students;```").filter hasFenceKw =
      ["select * from students;"]
  ∧ cleanFences "```select * from students;```" = "select * from students;" := by
  refine ⟨by decide, by decide, ?_⟩
  have h := cleanFences_first_kw_fragment "```select * from students;```"
    "select * from students;" [] (by decide) (by decide)
  rw [h]; decide

/-- C3 counterexample: when the completion is fence-wrapped and the
cleaned fragment fails the keyword check, the returned error message
carries the cleaned fragment, not the raw completion text — the raw text
is not contained in the diagnostic. -/
theorem nl_to_sql_error_lacks_raw_counterexample :
    (nl_to_sql (.ok "I suggest: ```a select here```") "show students").outcome =
      .genErr "Model did not return a valid SQL statement. It returned:\na select here"
  ∧ strHasSub "I suggest: ```a select here```"
      "Model did not return a valid SQL statement. It returned:\na select here" = false := by
  decide

/-- C3 amended: for every raw completion, `nl_to_sql` returns the cleaned
SQL exactly when the first whitespace-delimited token of the cleaned
text, lower-cased, is one of the recognized statement keywords; otherwise
(including when the cleaned text is empty) it returns a generation error
whose message carries the CLEANED text for diagnostics; it never raises
(every path yields a plain `NlReturn`). -/
theorem nl_to_sql_validation (content text : String)
    (h : (text = "" || pyStrip text = "") = false) :
    (leadKwOk (cleanedOf content) = true →
      nl_to_sql (.ok content) text = ⟨.ok (cleanedOf content), 1⟩)
  ∧ (leadKwOk (cleanedOf content) = false →
      nl_to_sql (.ok content) text =
        ⟨.genErr ("Model did not return a valid SQL statement. It returned:\n" ++
          cleanedOf content), 1⟩) := by
  constructor <;> intro hk <;> simp [nl_to_sql, h, hk]

/-- C3 amended witness: a plain `SELECT` completion is returned as the
cleaned SQL. -/
theorem nl_to_sql_validation_witness :
    nl_to_sql (.ok "SELECT * FROM students") "show all" =
      ⟨.ok (cleanedOf "SELECT * FROM students"), 1⟩ :=
  (nl_to_sql_validation "SELECT * FROM students" "show all" (by decide)).1 (by decide)

/-- C9: for every request that is empty or strips to the empty string,
`nl_to_sql` returns the fixed please-type message with zero calls to the
completion service, independently of the service oracle. -/
theorem nl_to_sql_blank_input_no_llm_call (llm : LlmReply) (text : String)
    (h : pyStrip text = "") :
    nl_to_sql llm text = ⟨.genErr "Please type a question or command.", 0⟩ := by
  simp [nl_to_sql, h]

/-- C9 witness: a whitespace-only request short-circuits without
consulting the completion service. -/
theorem nl_to_sql_blank_input_no_llm_call_witness :
    nl_to_sql (.ok "SELECT 1") "   " = ⟨.genErr "Please type a question or command.", 0⟩ :=
  nl_to_sql_blank_input_no_llm_call (.ok "SELECT 1") "   " (by decide)

/-- Every trace produced by `handle` has one of four literal shapes:
generation failure; execute once and report; execute, fail to repair and
report; execute, repair, re-execute and report. -/
lemma handle_shape {σ ρ : Type} (genLlm fixLlm : LlmReply) (eng : Engine σ ρ) (db : σ)
    (user : String) :
    (∃ m, handle genLlm fixLlm eng db user =
        [.msgUser user, .genCall, .msgAssistant m])
  ∨ (∃ sql m, handle genLlm fixLlm eng db user =
        [.msgUser user, .genCall, .showSql sql, .execCall sql, .msgAssistant m])
  ∨ (∃ sql m, handle genLlm fixLlm eng db user =
        [.msgUser user, .genCall, .showSql sql, .execCall sql, .fixCall, .msgAssistant m])
  ∨ (∃ sql fixedSql m, handle genLlm fixLlm eng db user =
        [.msgUser user, .genCall, .showSql sql, .execCall sql, .fixCall,
         .showFixedSql fixedSql, .execCall fixedSql, .msgAssistant m]) := by
  cases hg : (nl_to_sql genLlm user).outcome with
  | genErr e =>
    exact Or.inl ⟨"❌ " ++ e, by simp [handle, hg]⟩
  | ok sql =>
    cases h1 : truthy (run_sql eng db sql).err with
    | false =>
      exact Or.inr (Or.inl ⟨sql,
        outcomeMsg (run_sql eng db sql).kind (run_sql eng db sql).df false,
        by simp [handle, hg, h1]⟩)
    | true =>
      cases hf : fix_sql fixLlm sql ((run_sql eng db sql).err.getD "") user with
      | genErr fe =>
        exact Or.inr (Or.inr (Or.inl ⟨sql,
          "❌ DB error: " ++ (run_sql eng db sql).err.getD "" ++
            "\n\nAnd fix also failed: " ++ fe,
          by simp [handle, hg, h1, hf]⟩))
      | ok fixedSql =>
        cases h2 : truthy (run_sql eng (run_sql eng db sql).finalDb fixedSql).err with
        | true =>
          exact Or.inr (Or.inr (Or.inr ⟨sql, fixedSql,
            "❌ DB error after fix: " ++
              (run_sql eng (run_sql eng db sql).finalDb fixedSql).err.getD "",
            by simp [handle, hg, h1, hf, h2]⟩))
        | false =>
          exact Or.inr (Or.inr (Or.inr ⟨sql, fixedSql,
            outcomeMsg (run_sql eng (run_sql eng db sql).finalDb fixedSql).kind
              (run_sql eng (run_sql eng db sql).finalDb fixedSql).df true,
            by simp [handle, hg, h1, hf, h2]⟩))

/-- C1: every interaction makes exactly one generation call, at most two
execution calls and at most one repair call; and when the generated SQL
fails and the repaired SQL fails again, the interaction terminates with
the double-failure report and the trace is exactly one generation, one
repair and two executions — no third cycle of any kind. -/
theorem handle_at_most_one_repair {σ ρ : Type} (genLlm fixLlm : LlmReply)
    (eng : Engine σ ρ) (db : σ) (user : String) :
    countGen (handle genLlm fixLlm eng db user) = 1
  ∧ countExec (handle genLlm fixLlm eng db user) ≤ 2
  ∧ countFix (handle genLlm fixLlm eng db user) ≤ 1
  ∧ (∀ sql dbErr fixedSql dbErr2,
      (nl_to_sql genLlm user).outcome = .ok sql →
      (run_sql eng db sql).err = some dbErr → dbErr ≠ "" →
      fix_sql fixLlm sql dbErr user = .ok fixedSql →
      (run_sql eng (run_sql eng db sql).finalDb fixedSql).err = some dbErr2 →
      dbErr2 ≠ "" →
      handle genLlm fixLlm eng db user =
        [.msgUser user, .genCall, .showSql sql, .execCall sql, .fixCall,
         .showFixedSql fixedSql, .execCall fixedSql,
         .msgAssistant ("❌ DB error after fix: " ++ dbErr2)]) := by
  refine ⟨?_, ?_, ?_, ?_⟩
  · rcases handle_shape genLlm fixLlm eng db user with
      ⟨m, hm⟩ | ⟨s, m, hm⟩ | ⟨s, m, hm⟩ | ⟨s, f, m, hm⟩ <;>
      simp [hm, countGen, List.countP_cons, List.countP_nil]
  · rcases handle_shape genLlm fixLlm eng db user with
      ⟨m, hm⟩ | ⟨s, m, hm⟩ | ⟨s, m, hm⟩ | ⟨s, f, m, hm⟩ <;>
      simp [hm, countExec, List.countP_cons, List.countP_nil]
  · rcases handle_shape genLlm fixLlm eng db user with
      ⟨m, hm⟩ | ⟨s, m, hm⟩ | ⟨s, m, hm⟩ | ⟨s, f, m, hm⟩ <;>
      simp [hm, countFix, List.countP_cons, List.countP_nil]
  · intro sql dbErr fixedSql dbErr2 hg h1 hne hf h2 hne2
    have t1 : truthy (run_sql eng db sql).err = true := by simp [truthy, h1, hne]
    have g1 : (run_sql eng db sql).err.getD "" = dbErr := by simp [h1]
    have t2 : truthy (run_sql eng (run_sql eng db sql).finalDb fixedSql).err = true := by
      simp [truthy, h2, hne2]
    have g2 : (run_sql eng (run_sql eng db sql).finalDb fixedSql).err.getD "" = dbErr2 := by
      simp [h2]
    simp [handle, hg, t1, g1, hf, t2, g2]

/-- C1 witness: a double failure (echoing engine rejects both the
generated and the repaired statement) ends after the second execution
with the after-fix failure report. -/
theorem handle_at_most_one_repair_witness :
    handle (σ := Nat) (ρ := Nat) (.ok "select foo") (.ok "select bar")
        echoErrEngine 0 "show" =
      [.msgUser "show", .genCall, .showSql "select foo", .execCall "select foo", .fixCall,
       .showFixedSql "select bar", .execCall "select bar",
       .msgAssistant ("❌ DB error after fix: " ++ "select bar")] :=
  (handle_at_most_one_repair (.ok "select foo") (.ok "select bar")
      echoErrEngine 0 "show").2.2.2 "select foo" "select foo" "select bar" "select bar"
    (by decide) (by decide) (by decide) (by decide) (by decide) (by decide)

/-- C8 counterexample: on a successful row-returning interaction the
assistant history message is the fixed success text, which does not
contain the generated SQL — the row-set result variant recorded in the
interaction history does not surface the SQL text. -/
theorem handle_history_lacks_sql_counterexample :
    assistantMsgs (handle (.ok "select id from students") (.ok "select 1")
        pendingRowsEngine 0 "show all students") =
      ["✅ Query ran successfully and returned rows."]
  ∧ strHasSub "select id from students"
      "✅ Query ran successfully and returned rows." = false := by
  decide

/-- C8 amended: each completed interaction records exactly one assistant
outcome message in the history; the generated SQL is displayed in the
turn (a code-block event) whenever generation succeeds, and the repaired
SQL whenever repair succeeds — but the history message itself does not
carry the SQL on the success variants. -/
theorem handle_one_message_and_shows_sql {σ ρ : Type} (genLlm fixLlm : LlmReply)
    (eng : Engine σ ρ) (db : σ) (user : String) :
    (assistantMsgs (handle genLlm fixLlm eng db user)).length = 1
  ∧ (∀ sql, (nl_to_sql genLlm user).outcome = .ok sql →
      Event.showSql sql ∈ handle genLlm fixLlm eng db user)
  ∧ (∀ sql dbErr fixedSql, (nl_to_sql genLlm user).outcome = .ok sql →
      (run_sql eng db sql).err = some dbErr → dbErr ≠ "" →
      fix_sql fixLlm sql dbErr user = .ok fixedSql →
      Event.showFixedSql fixedSql ∈ handle genLlm fixLlm eng db user) := by
  refine ⟨?_, ?_, ?_⟩
  · rcases handle_shape genLlm fixLlm eng db user with
      ⟨m, hm⟩ | ⟨s, m, hm⟩ | ⟨s, m, hm⟩ | ⟨s, f, m, hm⟩ <;>
      simp [hm, assistantMsgs]
  · intro sql hg
    cases h1 : truthy (run_sql eng db sql).err with
    | false => simp [handle, hg, h1]
    | true =>
      cases hf : fix_sql fixLlm sql ((run_sql eng db sql).err.getD "") user with
      | genErr fe => simp [handle, hg, h1, hf]
      | ok fixedSql =>
        cases h2 : truthy (run_sql eng (run_sql eng db sql).finalDb fixedSql).err with
        | true => simp [handle, hg, h1, hf, h2]
        | false => simp [handle, hg, h1, hf, h2]
  · intro sql dbErr fixedSql hg h1 hne hf
    have t1 : truthy (run_sql eng db sql).err = true := by simp [truthy, h1, hne]
    have g1 : (run_sql eng db sql).err.getD "" = dbErr := by simp [h1]
    cases h2 : truthy (run_sql eng (run_sql eng db sql).finalDb fixedSql).err with
    | true => simp [handle, hg, t1, g1, hf, h2]
    | false => simp [handle, hg, t1, g1, hf, h2]

/-- C8 amended witness: on a successful row-returning interaction the
generated SQL is displayed as a code block in the turn. -/
theorem handle_one_message_and_shows_sql_witness :
    Event.showSql "select id from students" ∈
      handle (.ok "select id from students") (.ok "select 1")
        pendingRowsEngine 0 "show all students" :=
  (handle_one_message_and_shows_sql (.ok "select id from students") (.ok "select 1")
      pendingRowsEngine 0 "show all students").2.1 "select id from students" (by decide)

end Datalynx
